import Mathlib

/-!
Shallow embedding of the FFI boundary layer of the CCZUNI crate
(`src/ffi.rs`).  The wrapped session/protocol logic (SSO login,
Jwqywx application, serde_json, the status probe) lives outside this
file's source and is treated as a family of collaborators: their
outcomes enter the embedded functions as explicit parameters.
Pointer-level behaviour (Box::into_raw / Box::from_raw /
CString::from_raw) is modelled with a small explicit heap in which
address 0 is the null pointer and an operation that would be undefined
behaviour in C returns `none`.
-/

namespace CCZUNI

/-- Embeds `struct FfiResult<T>` (src/ffi.rs lines 25-30): the uniform
success/error envelope with fields `success`, `data`, `error`. -/
structure FfiResult (α : Type) where
  success : Bool
  data : Option α
  error : Option String

/-- Embeds `FfiResult::success` (src/ffi.rs lines 33-39).  Named
`mkSuccess` because Lean reserves `FfiResult.success` for the field
projection. -/
def FfiResult.mkSuccess (d : α) : FfiResult α :=
  ⟨true, some d, none⟩

/-- Embeds `FfiResult::error` (src/ffi.rs lines 41-47).  In the Rust
source the error envelopes are built at type `FfiResult<()>`; since
`data` is `None` in every error envelope the payload type is a free
parameter here and the two agree. -/
def FfiResult.mkError (msg : String) : FfiResult α :=
  ⟨false, none, some msg⟩

/-- An envelope is well formed when exactly one of `data`/`error` is
present and `success` is true exactly when `data` is the present one
(spec section 3, Result Envelope invariant). -/
def FfiResult.wellFormed (r : FfiResult α) : Prop :=
  (r.data.isSome = true ↔ r.error.isSome = false) ∧
  (r.success = true ↔ r.data.isSome = true)

/-- Lower-case hexadecimal digit, as emitted by serde_json's string
escaper for control characters. -/
def hexDigit (n : Nat) : Char :=
  if n < 10 then Char.ofNat (48 + n) else Char.ofNat (87 + n)

/-- Models serde_json's escaping of one character inside a JSON string
literal: quote, backslash, the short control escapes, and a
\u00XX escape for remaining control characters. -/
def jsonEscapeChar (c : Char) : String :=
  if c = '\"' then "\\\""
  else if c = '\\' then "\\\\"
  else if c = '\x08' then "\\b"
  else if c = '\x0c' then "\\f"
  else if c = '\n' then "\\n"
  else if c = '\r' then "\\r"
  else if c = '\t' then "\\t"
  else if c.toNat < 32 then
    "\\u00" ++ String.singleton (hexDigit (c.toNat / 16))
      ++ String.singleton (hexDigit (c.toNat % 16))
  else String.singleton c

/-- Models serde_json's rendering of a Rust `String` as a JSON string
literal.  Total: string serialization never fails. -/
def jsonEncodeString (s : String) : String :=
  "\"" ++ String.join (s.toList.map jsonEscapeChar) ++ "\""

/-- Renders the envelope object once the data field has already been
rendered: field order `success`, `data`, `error` follows the struct
declaration, as serde's derived serializer does. -/
def renderEnvelope (success : Bool) (dataStr : String) (err : Option String) : String :=
  "\x7b\"success\":" ++ (if success then "true" else "false")
    ++ ",\"data\":" ++ dataStr ++ ",\"error\":"
    ++ (match err with
        | none => "null"
        | some e => jsonEncodeString e)
    ++ "\x7d"

/-- Models `serde_json::to_string(&self)` on an `FfiResult<T>`: the
payload serializer `pser` is the collaborator (serde's `T: Serialize`
instance) and may fail; a failure while serializing the payload makes
the whole serialization fail, while the `success`, `error` and `None`
fields always serialize. -/
def serializeFfiResult (pser : α → Except String String) (r : FfiResult α) :
    Except String String :=
  match r.data with
  | none => Except.ok (renderEnvelope r.success "null" r.error)
  | some a =>
    match pser a with
    | Except.ok dataStr => Except.ok (renderEnvelope r.success dataStr r.error)
    | Except.error e => Except.error e

/-- Embeds `FfiResult::to_json_string` (src/ffi.rs lines 49-57):
serialize the envelope; on failure, serialize instead the fixed error
envelope `FfiResult::<()>::error("JSON serialization failed: ...")`
and `unwrap` the result.  The unit payload serializes as `null` and
never fails, so the final `unwrap` is modelled by `Except.toOption`
(where `none` would be the panic). -/
def FfiResult.to_json_string (pser : α → Except String String) (r : FfiResult α) :
    Option String :=
  match serializeFfiResult pser r with
  | Except.ok s => some s
  | Except.error e =>
    (serializeFfiResult (fun (_ : Unit) => Except.ok "null")
      (FfiResult.mkError ("JSON serialization failed: " ++ e))).toOption

/-- A collaborator message wrapper: the Jwqywx responses carry their
payload in a `message` field (`grades_msg.message`, `terms.message`). -/
structure Message (α : Type) where
  message : α

/-- A term record as used by `cczuni_get_schedule`: only its `term`
field (a string identifier) is consumed by this layer. -/
structure Term where
  term : String

/-- The Jwqywx sub-application collaborator as seen from src/ffi.rs: a
login step, a grades fetch, a terms fetch and a per-term week-matrix
fetch, each of which may fail with a textual error (the boundary only
ever formats errors with `to_string`/`format`, so errors are embedded
as their description strings). -/
structure JwqywxApp (Grades Matrix : Type) where
  login : Except String Unit
  get_grades : Except String (Message Grades)
  terms : Except String (Message (List Term))
  get_term_classinfo_week_matrix : String → Except String Matrix

/-- Embeds the envelope-producing core of `cczuni_login` (src/ffi.rs
lines 107-118): the SSO collaborator outcome is matched into a success
or error envelope.  The function is total — an ordinary collaborator
failure produces an envelope, never an abnormal termination. -/
def cczuni_login (ssoResult : Except String α) : FfiResult α :=
  match ssoResult with
  | Except.ok login_info => FfiResult.mkSuccess login_info
  | Except.error e => FfiResult.mkError e

/-- Embeds the envelope-producing core of `cczuni_get_grades`
(src/ffi.rs lines 129-149).  The second component records whether the
grades fetch was consulted: in the source, `app.get_grades()` is only
awaited after `app.login()` returned `Ok`. -/
def cczuni_get_grades {Grades Matrix : Type} (app : JwqywxApp Grades Matrix) :
    FfiResult Grades × Bool :=
  match app.login with
  | Except.error e =>
    (FfiResult.mkError ("Failed to login to Jwqywx: " ++ e), false)
  | Except.ok _ =>
    match app.get_grades with
    | Except.ok grades_msg => (FfiResult.mkSuccess grades_msg.message, true)
    | Except.error e => (FfiResult.mkError e, true)

/-- Embeds the envelope-producing core of `cczuni_get_schedule`
(src/ffi.rs lines 160-192).  The second component records whether the
week-matrix fetch was consulted: in the source,
`app.get_term_classinfo_week_matrix` is only awaited after the app
login succeeded, the terms fetch succeeded and the term list was
non-empty (`terms.message.first()` returned `Some`). -/
def cczuni_get_schedule {Grades Matrix : Type} (app : JwqywxApp Grades Matrix) :
    FfiResult Matrix × Bool :=
  match app.login with
  | Except.error e =>
    (FfiResult.mkError ("Failed to login to Jwqywx: " ++ e), false)
  | Except.ok _ =>
    match app.terms with
    | Except.ok terms =>
      match terms.message.head? with
      | some current_term =>
        (match app.get_term_classinfo_week_matrix current_term.term with
         | Except.ok matrix => (FfiResult.mkSuccess matrix, true)
         | Except.error e => (FfiResult.mkError e, true))
      | none => (FfiResult.mkError "No terms found", false)
    | Except.error e => (FfiResult.mkError e, false)

/-- A service status code as probed by `services_status_code`: its
`as_u16` accessor yields the numeric HTTP status (a u16, reduced
modulo 2^16). -/
structure StatusCode where
  code : Nat

/-- Embeds `StatusCode::as_u16`. -/
def StatusCode.as_u16 (s : StatusCode) : Nat :=
  s.code % 65536

/-- Embeds the envelope-producing core of `cczuni_get_services_status`
(src/ffi.rs lines 200-212): the probe collaborator's mapping is
converted entry-wise to numeric codes and wrapped, unconditionally, in
a success envelope. -/
def cczuni_get_services_status (status_map : List (String × StatusCode)) :
    FfiResult (List (String × Nat)) :=
  FfiResult.mkSuccess (status_map.map (fun kv => (kv.1, kv.2.as_u16)))

/-- Modelled from the spec: `DefaultClient::account`
(crate::impls::client, not under src/) constructs a session object in
its initial not-yet-authenticated state holding the two credential
strings; it performs no network I/O (spec sections 4.2 and 6,
create_client "never blocks on I/O"). -/
structure DefaultClient where
  user : String
  password : String

/-- Modelled from the spec: the `DefaultClient::account` constructor. -/
def DefaultClient.account (user password : String) : DefaultClient :=
  ⟨user, password⟩

/-- An explicit heap of boxed values: `next` is the last address handed
out (fresh allocations use `next + 1`, so an allocated address is
never 0, the null pointer) and `store` maps live addresses to their
values. -/
structure Heap (α : Type) where
  next : Nat
  store : List (Nat × α)

/-- Models `Box::into_raw(Box::new a)` / `CString::into_raw`: allocate
a fresh non-null address for `a`. -/
def Heap.alloc (h : Heap α) (a : α) : Nat × Heap α :=
  (h.next + 1, ⟨h.next + 1, (h.next + 1, a) :: h.store⟩)

/-- Look up a live address. -/
def Heap.lookup (h : Heap α) (p : Nat) : Option α :=
  (h.store.find? (fun q => q.1 == p)).map Prod.snd

/-- Remove an address from the heap. -/
def Heap.removePtr (h : Heap α) (p : Nat) : Heap α :=
  ⟨h.next, h.store.filter (fun q => q.1 != p)⟩

/-- Models `Box::from_raw p` (and `CString::from_raw p`): reclaim the
value at `p`.  On an address that is not a live allocation this is
undefined behaviour, modelled as `none`. -/
def boxFromRaw (p : Nat) (h : Heap α) : Option (α × Heap α) :=
  match h.lookup p with
  | some a => some (a, h.removePtr p)
  | none => none

/-- Embeds `cczuni_client_new` (src/ffi.rs lines 72-81): decode both
credential C strings with the lossy decoder (a total collaborator —
`CStr::to_string_lossy` substitutes replacement characters and never
fails), build the client with `DefaultClient::account`, and box it,
returning the raw address. -/
def cczuni_client_new (lossy : List Nat → String) (user password : List Nat)
    (h : Heap DefaultClient) : Nat × Heap DefaultClient :=
  let user_str := lossy user
  let password_str := lossy password
  let client := DefaultClient.account user_str password_str
  h.alloc client

/-- Embeds `cczuni_client_free` (src/ffi.rs lines 88-94): on a null
pointer do nothing; otherwise reclaim the box (undefined behaviour,
`none`, if the pointer is not a live allocation). -/
def cczuni_client_free (p : Nat) (h : Heap DefaultClient) : Option (Heap DefaultClient) :=
  if p = 0 then some h
  else
    match boxFromRaw p h with
    | some (_, hNew) => some hNew
    | none => none

/-- Embeds `cczuni_free_string` (src/ffi.rs lines 221-227): on a null
pointer do nothing; otherwise reclaim the C string. -/
def cczuni_free_string (p : Nat) (h : Heap String) : Option (Heap String) :=
  if p = 0 then some h
  else
    match boxFromRaw p h with
    | some (_, hNew) => some hNew
    | none => none

/-- Models `unsafe { &*client_ptr }`: dereference a client handle.
Dereferencing the null pointer, or any address that is not a live
allocation, is undefined behaviour (`none`).  `cczuni_login`,
`cczuni_get_grades` and `cczuni_get_schedule` perform this dereference
unconditionally, with no null check. -/
def derefHandle (p : Nat) (h : Heap DefaultClient) : Option DefaultClient :=
  if p = 0 then none else h.lookup p

/-- Pointer-level `cczuni_login` (src/ffi.rs lines 107-108): the
handle is dereferenced unconditionally, then the SSO collaborator for
that client decides the envelope. -/
def cczuni_login_ffi (p : Nat) (h : Heap DefaultClient)
    (sso : DefaultClient → Except String α) : Option (FfiResult α) :=
  (derefHandle p h).map (fun client => cczuni_login (sso client))

/-- Pointer-level `cczuni_get_grades` (src/ffi.rs lines 129-130). -/
def cczuni_get_grades_ffi {Grades Matrix : Type} (p : Nat) (h : Heap DefaultClient)
    (app : DefaultClient → JwqywxApp Grades Matrix) :
    Option (FfiResult Grades × Bool) :=
  (derefHandle p h).map (fun client => cczuni_get_grades (app client))

/-- Pointer-level `cczuni_get_schedule` (src/ffi.rs lines 160-161). -/
def cczuni_get_schedule_ffi {Grades Matrix : Type} (p : Nat) (h : Heap DefaultClient)
    (app : DefaultClient → JwqywxApp Grades Matrix) :
    Option (FfiResult Matrix × Bool) :=
  (derefHandle p h).map (fun client => cczuni_get_schedule (app client))

/-- Concrete Jwqywx collaborator whose sub-application login fails with
"bad app session". -/
def appBadAppSession : JwqywxApp Nat Nat :=
  ⟨Except.error "bad app session", Except.ok ⟨0⟩, Except.ok ⟨[]⟩,
   fun _ => Except.ok 0⟩

/-- Concrete Jwqywx collaborator whose term discovery succeeds with an
empty term list. -/
def appEmptyTerms : JwqywxApp Nat Nat :=
  ⟨Except.ok (), Except.ok ⟨0⟩, Except.ok ⟨[]⟩, fun _ => Except.ok 0⟩

/-- Concrete Jwqywx collaborator with two discovered terms, whose
week-matrix fetch succeeds only on the first term. -/
def appTwoTerms : JwqywxApp Nat Nat :=
  ⟨Except.ok (), Except.ok ⟨0⟩,
   Except.ok ⟨[⟨"2024-1"⟩, ⟨"2023-2"⟩]⟩,
   fun t => if t = "2024-1" then Except.ok 7 else Except.error "wrong term"⟩

/-- C1: every envelope produced by the boundary's success and error
constructors — and hence every envelope produced by `cczuni_login`,
`cczuni_get_grades`, `cczuni_get_schedule` and
`cczuni_get_services_status` — has exactly one of `data`/`error`
present, and `success` is true exactly when `data` is the one
present. -/
theorem C1_envelope_invariant :
    (∀ (α : Type) (d : α), (FfiResult.mkSuccess d).wellFormed) ∧
    (∀ (α : Type) (msg : String), (FfiResult.mkError msg : FfiResult α).wellFormed) ∧
    (∀ (α : Type) (res : Except String α), (cczuni_login res).wellFormed) ∧
    (∀ (G M : Type) (app : JwqywxApp G M), (cczuni_get_grades app).1.wellFormed) ∧
    (∀ (G M : Type) (app : JwqywxApp G M), (cczuni_get_schedule app).1.wellFormed) ∧
    (∀ (m : List (String × StatusCode)), (cczuni_get_services_status m).wellFormed) := by
  refine ⟨?_, ?_, ?_, ?_, ?_, ?_⟩
  · intro α d
    simp [FfiResult.wellFormed, FfiResult.mkSuccess]
  · intro α msg
    simp [FfiResult.wellFormed, FfiResult.mkError]
  · intro α res
    cases res with
    | ok a => simp [cczuni_login, FfiResult.wellFormed, FfiResult.mkSuccess]
    | error e => simp [cczuni_login, FfiResult.wellFormed, FfiResult.mkError]
  · intro G M app
    cases hl : app.login with
    | error e => simp [cczuni_get_grades, hl, FfiResult.wellFormed, FfiResult.mkError]
    | ok u =>
      cases hg : app.get_grades with
      | ok msg =>
        simp [cczuni_get_grades, hl, hg, FfiResult.wellFormed, FfiResult.mkSuccess]
      | error e =>
        simp [cczuni_get_grades, hl, hg, FfiResult.wellFormed, FfiResult.mkError]
  · intro G M app
    cases hl : app.login with
    | error e => simp [cczuni_get_schedule, hl, FfiResult.wellFormed, FfiResult.mkError]
    | ok u =>
      cases ht : app.terms with
      | error e =>
        simp [cczuni_get_schedule, hl, ht, FfiResult.wellFormed, FfiResult.mkError]
      | ok terms =>
        cases hh : terms.message.head? with
        | none =>
          simp [cczuni_get_schedule, hl, ht, hh, FfiResult.wellFormed, FfiResult.mkError]
        | some t =>
          cases hm : app.get_term_classinfo_week_matrix t.term with
          | ok mat =>
            simp [cczuni_get_schedule, hl, ht, hh, hm, FfiResult.wellFormed,
              FfiResult.mkSuccess]
          | error e =>
            simp [cczuni_get_schedule, hl, ht, hh, hm, FfiResult.wellFormed,
              FfiResult.mkError]
  · intro m
    simp [cczuni_get_services_status, FfiResult.wellFormed, FfiResult.mkSuccess]

/-- C2: if the Jwqywx sub-application login step inside
`cczuni_get_grades` fails with error `e`, the function returns an
error envelope whose message is "Failed to login to Jwqywx: " followed
by `e`, and the grades fetch is never attempted (second component
`false`). -/
theorem C2_grades_app_login_short_circuit {G M : Type} (app : JwqywxApp G M)
    (e : String) (h : app.login = Except.error e) :
    cczuni_get_grades app =
      (FfiResult.mkError ("Failed to login to Jwqywx: " ++ e), false) := by
  simp [cczuni_get_grades, h]

/-- Witness for C2 at the spec's concrete scenario: a sub-application
login failing with "bad app session". -/
theorem C2_witness :
    cczuni_get_grades appBadAppSession =
      (FfiResult.mkError ("Failed to login to Jwqywx: " ++ "bad app session"),
        false) :=
  C2_grades_app_login_short_circuit appBadAppSession "bad app session" rfl

/-- C3 counterexample: with a collaborator whose term discovery
succeeds with an empty list, the envelope's message is "No terms
found" (capital N, as in src/ffi.rs line 184), not the claimed
"no terms found". -/
theorem C3_counterexample :
    (cczuni_get_schedule appEmptyTerms).1.error = some "No terms found" ∧
    (cczuni_get_schedule appEmptyTerms).1.error ≠ some "no terms found" := by
  constructor
  · rfl
  · decide

/-- C3 (amended): if term discovery inside `cczuni_get_schedule`
succeeds but returns an empty term sequence, the function returns an
error envelope with message "No terms found" (not a success with empty
data), and no week-matrix fetch is attempted (second component
`false`). -/
theorem C3_empty_terms_error {G M : Type} (app : JwqywxApp G M)
    (hl : app.login = Except.ok ()) (ht : app.terms = Except.ok ⟨[]⟩) :
    cczuni_get_schedule app = (FfiResult.mkError "No terms found", false) := by
  simp [cczuni_get_schedule, hl, ht]

/-- Witness for the amended C3 at a concrete collaborator. -/
theorem C3_witness :
    cczuni_get_schedule appEmptyTerms =
      (FfiResult.mkError "No terms found", false) :=
  C3_empty_terms_error appEmptyTerms rfl rfl

/-- C4: if the SSO login collaborator fails with error `e`,
`cczuni_login` returns an envelope with `success = false`, no data,
and the `error` field present and carrying `e`'s description; being a
total function of the collaborator outcome, the call returns normally
on every such expected failure. -/
theorem C4_login_failure_envelope (α : Type) (e : String) :
    (cczuni_login (Except.error e : Except String α)).success = false ∧
    (cczuni_login (Except.error e : Except String α)).data = none ∧
    (cczuni_login (Except.error e : Except String α)).error = some e :=
  ⟨rfl, rfl, rfl⟩

/-- C5: for every pair of input credential byte sequences (including
malformed ones — the lossy decoder is total) `cczuni_client_new`
returns a non-null handle, and the heap cell behind that handle holds
the client built from the lossily decoded credential copies; the
function is pure apart from the allocation, performing no network
I/O. -/
theorem C5_client_new_nonnull (lossy : List Nat → String)
    (user password : List Nat) (h : Heap DefaultClient) :
    (cczuni_client_new lossy user password h).1 ≠ 0 ∧
    (cczuni_client_new lossy user password h).2.lookup
        (cczuni_client_new lossy user password h).1 =
      some (DefaultClient.account (lossy user) (lossy password)) := by
  constructor
  · simp [cczuni_client_new, Heap.alloc]
  · simp [cczuni_client_new, Heap.alloc, Heap.lookup, List.find?]

/-- C6: `to_json_string` never fails outwardly — for every payload
serializer and envelope it returns some string — and when the
envelope's own serialization fails with `e` it returns the rendering
of the fixed fallback error envelope (`success` false, data absent,
error "JSON serialization failed: " followed by `e`), whose
serialization always succeeds because its data field is `None`. -/
theorem C6_to_json_string_never_fails {α : Type}
    (pser : α → Except String String) (r : FfiResult α) :
    (∃ s, FfiResult.to_json_string pser r = some s) ∧
    ∀ e, serializeFfiResult pser r = Except.error e →
      FfiResult.to_json_string pser r =
        some (renderEnvelope false "null"
          (some ("JSON serialization failed: " ++ e))) := by
  constructor
  · cases hs : serializeFfiResult pser r with
    | ok s =>
      refine ⟨s, ?_⟩
      unfold FfiResult.to_json_string
      rw [hs]
    | error e =>
      refine ⟨renderEnvelope false "null"
        (some ("JSON serialization failed: " ++ e)), ?_⟩
      unfold FfiResult.to_json_string
      rw [hs]
      rfl
  · intro e he
    unfold FfiResult.to_json_string
    rw [he]
    rfl

/-- Witness for C6: a payload serializer that always fails triggers
the fallback, which succeeds with the fixed error envelope. -/
theorem C6_witness :
    FfiResult.to_json_string (fun (_ : Nat) => Except.error "boom")
        (FfiResult.mkSuccess 5) =
      some (renderEnvelope false "null"
        (some ("JSON serialization failed: " ++ "boom"))) :=
  (C6_to_json_string_never_fails (fun (_ : Nat) => Except.error "boom")
    (FfiResult.mkSuccess 5)).2 "boom" rfl

/-- C7: for every outcome of the status-probing collaborator,
`cczuni_get_services_status` returns a success envelope (never
`success = false`) whose data maps exactly the probed service names to
their numeric status codes. -/
theorem C7_services_status_success (m : List (String × StatusCode)) :
    (cczuni_get_services_status m).success = true ∧
    (cczuni_get_services_status m).error = none ∧
    (cczuni_get_services_status m).data =
      some (m.map (fun kv => (kv.1, kv.2.as_u16))) ∧
    ((cczuni_get_services_status m).data.getD []).map Prod.fst =
      m.map Prod.fst := by
  refine ⟨rfl, rfl, rfl, ?_⟩
  simp [cczuni_get_services_status, FfiResult.mkSuccess]

/-- C8: when the term list is non-empty, the week-matrix fetch inside
`cczuni_get_schedule` is applied exactly to the `term` field of the
first element in the returned order; on fetch success the envelope
wraps the matrix, on fetch failure it carries the collaborator's error
text. -/
theorem C8_first_term_fetch {G M : Type} (app : JwqywxApp G M)
    (t : Term) (rest : List Term)
    (hl : app.login = Except.ok ())
    (ht : app.terms = Except.ok ⟨t :: rest⟩) :
    (∀ m, app.get_term_classinfo_week_matrix t.term = Except.ok m →
      cczuni_get_schedule app = (FfiResult.mkSuccess m, true)) ∧
    (∀ e, app.get_term_classinfo_week_matrix t.term = Except.error e →
      cczuni_get_schedule app = (FfiResult.mkError e, true)) := by
  constructor
  · intro m hm
    simp [cczuni_get_schedule, hl, ht, hm]
  · intro e he
    simp [cczuni_get_schedule, hl, ht, he]

/-- Witness for C8: with two discovered terms the fetch runs on the
first one, "2024-1", and its success is wrapped in the envelope. -/
theorem C8_witness :
    cczuni_get_schedule appTwoTerms = (FfiResult.mkSuccess 7, true) :=
  (C8_first_term_fetch appTwoTerms ⟨"2024-1"⟩ [⟨"2023-2"⟩] rfl rfl).1 7 rfl

/-- C9: freeing a null client handle or a null string pointer is a
no-op: the heap is returned unchanged and no undefined behaviour
(`none`) occurs. -/
theorem C9_free_null_noop (h : Heap DefaultClient) (hs : Heap String) :
    cczuni_client_free 0 h = some h ∧ cczuni_free_string 0 hs = some hs := by
  constructor <;> simp [cczuni_client_free, cczuni_free_string]

/-- C10: unlike the two free operations, `cczuni_login`,
`cczuni_get_grades` and `cczuni_get_schedule` dereference the handle
unconditionally: on a null handle the dereference is undefined
behaviour (`none`) — the null handle is never detected and never
turned into an error envelope. -/
theorem C10_null_handle_undefined (α G M : Type) (h : Heap DefaultClient)
    (sso : DefaultClient → Except String α)
    (appG : DefaultClient → JwqywxApp G M)
    (appS : DefaultClient → JwqywxApp G M) :
    cczuni_login_ffi 0 h sso = none ∧
    cczuni_get_grades_ffi 0 h appG = none ∧
    cczuni_get_schedule_ffi 0 h appS = none := by
  refine ⟨?_, ?_, ?_⟩ <;>
    simp [cczuni_login_ffi, cczuni_get_grades_ffi, cczuni_get_schedule_ffi,
      derefHandle]

end CCZUNI
